import Mathlib

/-!
# Register snapshots of a traced thread (darwin / arm64)

A shallow embedding of `pkg/proc/native/registers_darwin_arm64.go`.

* Go `uint64` values are natural numbers; the file only stores and returns
  them, it never computes with them.
* A Go result pair `(v, error)` is a Lean pair whose error component is an
  `Option`: `none` is the nil error.
* A Go result pair `(proc.Registers, error)` has an `Option Regs` first
  component: `none` is the nil interface value.
* The cgo calls (`C.get_registers`, `C.get_identity`, `C.set_pc`) are
  fields of a record `threads_darwin` over an explicit kernel state.
-/

set_option autoImplicit false

namespace native

/-! ## Errors -/

/-- A Go `error` value, represented by its message. -/
abbrev error := String

namespace fmt

/-- Go `fmt.Errorf` applied to a format string without verbs. -/
def Errorf (msg : String) : error := msg

end fmt

namespace errors

/-- Go `errors.New`. -/
def New (msg : String) : error := msg

end errors

/-! ## Package `arm64asm` (golang.org/x/arch)

`type Reg uint16`, and the constant block of `inst.go` numbers the
registers with `iota`: `W0 .. W30, WZR, X0 .. X30, XZR, B0 ..`.  So
`W0 = 0`, `WZR = 31`, `X0 = 32`, `X30 = 62`, `XZR = 63`. -/

namespace arm64asm

/-- Number of values of `type Reg uint16`. -/
def regModulus : Nat := 65536

/-- The Go conversion `arm64asm.Reg(n)` of an `int`: the two's-complement
value truncated to 16 bits. -/
def Reg (n : Int) : Nat := (n % (regModulus : Int)).toNat

def X0 : Nat := 32
def X1 : Nat := 33
def X2 : Nat := 34
def X3 : Nat := 35
def X4 : Nat := 36
def X5 : Nat := 37
def X6 : Nat := 38
def X7 : Nat := 39
def X8 : Nat := 40
def X9 : Nat := 41
def X10 : Nat := 42
def X11 : Nat := 43
def X12 : Nat := 44
def X13 : Nat := 45
def X14 : Nat := 46
def X15 : Nat := 47
def X16 : Nat := 48
def X17 : Nat := 49
def X18 : Nat := 50
def X19 : Nat := 51
def X20 : Nat := 52
def X21 : Nat := 53
def X22 : Nat := 54
def X23 : Nat := 55
def X24 : Nat := 56
def X25 : Nat := 57
def X26 : Nat := 58
def X27 : Nat := 59
def X28 : Nat := 60
def X29 : Nat := 61
def X30 : Nat := 62

/-- The identifier of the general-purpose register `X_i`, for `i ≤ 30`. -/
def X (i : Nat) : Nat := X0 + i

end arm64asm

/-! ## Package `proc` -/

namespace proc

/-- Modelled from the spec: `proc.Register` is declared in package `proc`,
outside this source file.  The spec's NamedRegister is a
(name, value, display-hint) triple; the value is a 64-bit integer for a
general-purpose register, the payload `Bytes` is the opaque content of a
floating-point/vector register. -/
structure Register where
  Name : String
  Value : Nat
  Bytes : List Nat
  deriving DecidableEq, Repr

/-- Modelled from the spec: `proc.AppendUint64Register` is declared in
package `proc`, outside this source file.  It appends to `regs` the named
register `name` holding the 64-bit integer `value`. -/
def AppendUint64Register (regs : List Register) (name : String) (value : Nat) :
    List Register :=
  regs ++ [{ Name := name, Value := value, Bytes := [] }]

/-- Modelled from the spec: the sentinel `proc.ErrUnknownRegister` is
declared in package `proc`, outside this source file; it is the
UnknownRegister error of the spec's taxonomy. -/
def ErrUnknownRegister : error := errors.New "unknown register"

end proc

/-! ## The snapshot -/

/-- The Go struct `Regs`. -/
structure Regs where
  x0 : Nat
  x1 : Nat
  x2 : Nat
  x3 : Nat
  x4 : Nat
  x5 : Nat
  x6 : Nat
  x7 : Nat
  x8 : Nat
  x9 : Nat
  x10 : Nat
  x11 : Nat
  x12 : Nat
  x13 : Nat
  x14 : Nat
  x15 : Nat
  x16 : Nat
  x17 : Nat
  x18 : Nat
  x19 : Nat
  x20 : Nat
  x21 : Nat
  x22 : Nat
  x23 : Nat
  x24 : Nat
  x25 : Nat
  x26 : Nat
  x27 : Nat
  x28 : Nat
  x29 : Nat
  x30 : Nat
  gsBase : Nat
  fpregs : List proc.Register
  deriving DecidableEq, Repr

namespace Regs

/-- The zero value of the Go struct: every slot 0, `fpregs` nil. -/
def zero : Regs :=
  { x0 := 0, x1 := 0, x2 := 0, x3 := 0, x4 := 0, x5 := 0, x6 := 0, x7 := 0,
    x8 := 0, x9 := 0, x10 := 0, x11 := 0, x12 := 0, x13 := 0, x14 := 0,
    x15 := 0, x16 := 0, x17 := 0, x18 := 0, x19 := 0, x20 := 0, x21 := 0,
    x22 := 0, x23 := 0, x24 := 0, x25 := 0, x26 := 0, x27 := 0, x28 := 0,
    x29 := 0, x30 := 0, gsBase := 0, fpregs := [] }

/-- The local table `regs` of `Slice` (source lines 53-89): the display
name and the field read for it, in source order. -/
def sliceTable (r : Regs) : List (String × Nat) :=
  [ ("X0", r.x0),
    ("X1", r.x0),
    ("X2", r.x2),
    ("X3", r.x3),
    ("X4", r.x4),
    ("X5", r.x5),
    ("X6", r.x6),
    ("X7", r.x7),
    ("X8", r.x8),
    ("X9", r.x9),
    ("X10", r.x10),
    ("X11", r.x11),
    ("X12", r.x12),
    ("X13", r.x13),
    ("X14", r.x14),
    ("X15", r.x15),
    ("X16", r.x16),
    ("X17", r.x17),
    ("X18", r.x18),
    ("X19", r.x19),
    ("X20", r.x20),
    ("X21", r.x21),
    ("X22", r.x22),
    ("X23", r.x23),
    ("X24", r.x24),
    ("X25", r.x25),
    ("X26", r.x26),
    ("X27", r.x27),
    ("X28", r.x28),
    ("X29", r.x29),
    ("X30", r.x30),
    ("Gs_base", r.gsBase) ]

/-- One iteration of the loop of `Slice` (source lines 91-97). -/
def sliceStep (out : List proc.Register) (reg : String × Nat) : List proc.Register :=
  if reg.1 = "Rflags" then
    proc.AppendUint64Register out reg.1 reg.2
  else
    proc.AppendUint64Register out reg.1 reg.2

/-- The method `(r *Regs) Slice(floatingPoint bool) ([]proc.Register, error)`. -/
def Slice (r : Regs) (floatingPoint : Bool) : List proc.Register × Option error :=
  let out : List proc.Register := []
  let out := (sliceTable r).foldl sliceStep out
  let out := if floatingPoint then out ++ r.fpregs else out
  (out, none)

/-- The method `(r *Regs) TLS() uint64`. -/
def TLS (r : Regs) : Nat := r.gsBase

/-- The method `(r *Regs) GAddr() (uint64, bool)`. -/
def GAddr (_r : Regs) : Nat × Bool := (0, false)

/-- The method `(r *Regs) Get(n int) (uint64, error)`. -/
def Get (r : Regs) (n : Int) : Nat × Option error :=
  let reg := arm64asm.Reg n
  if reg = arm64asm.X0 then (r.x0, none)
  else if reg = arm64asm.X1 then (r.x0, none)
  else if reg = arm64asm.X2 then (r.x2, none)
  else if reg = arm64asm.X3 then (r.x3, none)
  else if reg = arm64asm.X4 then (r.x4, none)
  else if reg = arm64asm.X5 then (r.x5, none)
  else if reg = arm64asm.X6 then (r.x6, none)
  else if reg = arm64asm.X7 then (r.x7, none)
  else if reg = arm64asm.X8 then (r.x8, none)
  else if reg = arm64asm.X9 then (r.x9, none)
  else if reg = arm64asm.X10 then (r.x10, none)
  else if reg = arm64asm.X11 then (r.x11, none)
  else if reg = arm64asm.X12 then (r.x12, none)
  else if reg = arm64asm.X13 then (r.x13, none)
  else if reg = arm64asm.X14 then (r.x14, none)
  else if reg = arm64asm.X15 then (r.x15, none)
  else (0, some proc.ErrUnknownRegister)

/-- The method `(r *Regs) Copy() (proc.Registers, error)`: the body is
`return nil, nil` under a TODO comment. -/
def Copy (_r : Regs) : Option Regs × Option error := (none, none)

end Regs

/-! ## The privileged thread-control calls -/

/-- The C type `kern_return_t` (a C `int`). -/
abbrev kern_return_t := Int

/-- The Mach status `KERN_SUCCESS` (`<mach/kern_return.h>`: 0). -/
def KERN_SUCCESS : kern_return_t := 0

/-- Modelled from the spec: the thread-state record filled by
`C.get_registers` is declared in the C headers, outside this source file.
It is the result of the spec's privileged read of the architectural state;
the model keeps exactly the fields that `registers` reads, under the names
the source uses for them. -/
structure arm_thread_state64_t where
  __rax : Nat
  __rbx : Nat
  __rcx : Nat
  __rdx : Nat
  __rdi : Nat
  __rsi : Nat
  __rbp : Nat
  __rsp : Nat
  __r8 : Nat
  __r9 : Nat
  __r10 : Nat
  __r11 : Nat
  __r12 : Nat
  __r13 : Nat
  __r14 : Nat
  __r15 : Nat
  __rip : Nat
  deriving DecidableEq, Repr

/-- Modelled from the spec: the identity record filled by `C.get_identity`
is declared in the C headers, outside this source file.  It is the result
of the spec's privileged read of the thread identity metadata; the model
keeps the one field that `registers` reads. -/
structure thread_identifier_info_data_t where
  thread_handle : Nat
  deriving DecidableEq, Repr

/-- Modelled from the spec: the C functions of `threads_darwin.h`, which is
outside this source file, taken as parameters.  Each is the spec's
privileged primitive returning a coarse status: it runs against the kernel
state `σ` and a thread port, returns the kernel state after the call and
the status, and the two reads also return the record left behind their
out-pointer (which `registers` passes zero-initialised). -/
structure threads_darwin (σ : Type) where
  get_registers : σ → Nat → σ × kern_return_t × arm_thread_state64_t
  get_identity : σ → Nat → σ × kern_return_t × thread_identifier_info_data_t
  set_pc : σ → Nat → Nat → σ × kern_return_t

/-- The field `threadAct` of the thread's `os` record, the one part of
`osSpecificDetails` this file uses. -/
structure osSpecificDetails where
  threadAct : Nat
  deriving DecidableEq, Repr

/-- The part of `nativeThread` this file uses. -/
structure nativeThread where
  os : osSpecificDetails
  deriving DecidableEq, Repr

namespace nativeThread

/-- The method `(thread *nativeThread) SetPC(pc uint64) error`. -/
def SetPC {σ : Type} (C : threads_darwin σ) (k : σ) (thread : nativeThread) (pc : Nat) :
    σ × Option error :=
  let call := C.set_pc k thread.os.threadAct pc
  let kret := call.2
  if kret ≠ KERN_SUCCESS then
    (call.1, some (fmt.Errorf "could not set pc"))
  else
    (call.1, none)

/-- The method `(thread *nativeThread) SetSP(sp uint64) error`. -/
def SetSP {σ : Type} (_C : threads_darwin σ) (k : σ) (_thread : nativeThread) (_sp : Nat) :
    σ × Option error :=
  (k, some (errors.New "not implemented"))

/-- The method `(thread *nativeThread) SetDX(dx uint64) error`. -/
def SetDX {σ : Type} (_C : threads_darwin σ) (k : σ) (_thread : nativeThread) (_dx : Nat) :
    σ × Option error :=
  (k, some (errors.New "not implemented"))

end nativeThread

/-- The composite literal `&Regs{...}` of `registers` (source lines
219-242): the fields it names are set from the two records, every other
field keeps its zero value. -/
def registersLiteral (state : arm_thread_state64_t)
    (identity : thread_identifier_info_data_t) : Regs :=
  { Regs.zero with
    x0 := state.__rax,
    x1 := state.__rbx,
    x2 := state.__rcx,
    x3 := state.__rdx,
    x4 := state.__rdi,
    x5 := state.__rsi,
    x6 := state.__rbp,
    x7 := state.__rsp,
    x8 := state.__r8,
    x9 := state.__r9,
    x10 := state.__r10,
    x11 := state.__r11,
    x12 := state.__r12,
    x13 := state.__r13,
    x14 := state.__r14,
    x15 := state.__r15,
    x16 := state.__rip,
    gsBase := identity.thread_handle }

/-- The function `registers(thread *nativeThread) (proc.Registers, error)`.
The result is the kernel state after the calls made, the snapshot and the
error. -/
def registers {σ : Type} (C : threads_darwin σ) (k : σ) (thread : nativeThread) :
    σ × Option Regs × Option error :=
  let call := C.get_registers k thread.os.threadAct
  let kret := call.2.1
  let state := call.2.2
  if kret ≠ KERN_SUCCESS then
    (call.1, none, some (fmt.Errorf "could not get registers"))
  else
    let call2 := C.get_identity call.1 thread.os.threadAct
    let kret := call2.2.1
    let identity := call2.2.2
    if kret ≠ KERN_SUCCESS then
      (call2.1, none, some (fmt.Errorf "could not get thread identity informations"))
    else
      let regs := registersLiteral state identity
      (call2.1, some regs, none)

/-! ## Vocabulary of the statements and test fixtures -/

/-- The first entry of a register list that carries the display name
`name`. -/
def entryNamed (rs : List proc.Register) (name : String) : Option proc.Register :=
  rs.find? (fun e => decide (e.Name = name))

/-- The display names of `Slice` in canonical order. -/
def canonicalNames : List String :=
  [ "X0", "X1", "X2", "X3", "X4", "X5", "X6", "X7", "X8", "X9", "X10",
    "X11", "X12", "X13", "X14", "X15", "X16", "X17", "X18", "X19", "X20",
    "X21", "X22", "X23", "X24", "X25", "X26", "X27", "X28", "X29", "X30",
    "Gs_base" ]

/-- A snapshot whose slots `x0` and `x1` hold different values. -/
def sampleRegs : Regs := { Regs.zero with x0 := 5, x1 := 7 }

/-- The snapshot `sampleRegs` with another value in the slot `x1` and no
other change. -/
def sampleRegsX1 : Regs := { sampleRegs with x1 := 9 }

/-- A sample floating-point register entry. -/
def sampleFp : proc.Register := { Name := "V0", Value := 0, Bytes := [1, 2, 3] }

/-- A scripted kernel for one thread: the status each privileged call
answers with and the records the two reads leave behind. -/
structure scriptedThread where
  registersStatus : kern_return_t
  identityStatus : kern_return_t
  setPcStatus : kern_return_t
  state : arm_thread_state64_t
  identity : thread_identifier_info_data_t
  deriving DecidableEq, Repr

/-- The privileged calls answered from a `scriptedThread`. -/
def scripted : threads_darwin scriptedThread :=
  { get_registers := fun k _ => (k, k.registersStatus, k.state),
    get_identity := fun k _ => (k, k.identityStatus, k.identity),
    set_pc := fun k _ _ => (k, k.setPcStatus) }

/-- The all-zero thread-state record. -/
def zeroState : arm_thread_state64_t :=
  { __rax := 0, __rbx := 0, __rcx := 0, __rdx := 0, __rdi := 0, __rsi := 0,
    __rbp := 0, __rsp := 0, __r8 := 0, __r9 := 0, __r10 := 0, __r11 := 0,
    __r12 := 0, __r13 := 0, __r14 := 0, __r15 := 0, __rip := 0 }

/-- The scenario thread: every call succeeds, the first state field holds
0x42 and the identity handle is 0x7000. -/
def scenarioThread : scriptedThread :=
  { registersStatus := 0, identityStatus := 0, setPcStatus := 0,
    state := { zeroState with __rax := 0x42 },
    identity := { thread_handle := 0x7000 } }

/-- A thread handle for the fixtures. -/
def sampleThread : nativeThread := { os := { threadAct := 1 } }

/-- The display name of the general-purpose register number `i`: the
letter X followed by the decimal digits of `i`. -/
def regName (i : Nat) : String := "X" ++ toString i

/-- The display names X17 .. X30. -/
def highNames : List String :=
  [ "X17", "X18", "X19", "X20", "X21", "X22", "X23", "X24", "X25", "X26",
    "X27", "X28", "X29", "X30" ]

/-- A thread-state record with a different non-zero value in every
field. -/
def busyState : arm_thread_state64_t :=
  { __rax := 101, __rbx := 102, __rcx := 103, __rdx := 104, __rdi := 105,
    __rsi := 106, __rbp := 107, __rsp := 108, __r8 := 109, __r9 := 110,
    __r10 := 111, __r11 := 112, __r12 := 113, __r13 := 114, __r14 := 115,
    __r15 := 116, __rip := 117 }

/-- A scripted thread on which every call succeeds and every state field
is non-zero. -/
def busyThread : scriptedThread :=
  { registersStatus := 0, identityStatus := 0, setPcStatus := 0,
    state := busyState,
    identity := { thread_handle := 0x7000 } }

/-! ## Helper lemmas -/

namespace Regs

/-- The loop of `Slice` turns the table into one integer register per row,
in table order. -/
theorem foldl_sliceStep (t : List (String × Nat)) (acc : List proc.Register) :
    t.foldl sliceStep acc
      = acc ++ t.map (fun kv => ({ Name := kv.1, Value := kv.2, Bytes := [] } : proc.Register)) := by
  induction t generalizing acc with
  | nil => simp
  | cons kv rest ih =>
    simp [List.foldl_cons, ih, sliceStep, proc.AppendUint64Register]

/-- The general-purpose projection, entry by entry. -/
theorem Slice_false_eq (r : Regs) :
    (r.Slice false).1
      = (sliceTable r).map
          (fun kv => ({ Name := kv.1, Value := kv.2, Bytes := [] } : proc.Register)) := by
  simp [Slice, foldl_sliceStep]

/-- With floating point requested, the stored floating-point registers
follow the general-purpose projection. -/
theorem Slice_true_eq (r : Regs) :
    (r.Slice true).1 = (r.Slice false).1 ++ r.fpregs := by
  simp [Slice]

end Regs

/-! ## Regs.Get -/

/-- C1, evaluated at the failing input: in the snapshot `sampleRegs`
(x0 = 5, x1 = 7) the lookup of `arm64asm.X1` succeeds with the value 5 of
the slot x0, not the value 7 of the slot x1, and the lookup of
`arm64asm.X16` fails with `proc.ErrUnknownRegister` although the snapshot
holds a slot x16. -/
theorem Get_X1_reads_slot_x0 :
    sampleRegs.x1 = 7
      ∧ sampleRegs.Get arm64asm.X1 = (5, none)
      ∧ sampleRegs.Get arm64asm.X16 = (0, some proc.ErrUnknownRegister) := by
  refine ⟨rfl, ?_, ?_⟩ <;> decide

/-- C2, counterexample: the integer 65568 is not one of the identifiers
`arm64asm.X0 .. arm64asm.X15` (32 .. 47), it is not even a value of the
16-bit type `arm64asm.Reg`, yet `Get` converts it to `arm64asm.X0` and
reports success with the value of the slot x0; so it is false that every
integer outside the identifiers of the table is answered with
`proc.ErrUnknownRegister`. -/
theorem Get_wraps_out_of_range_identifier :
    ¬ ((arm64asm.X0 : Int) ≤ 65568 ∧ (65568 : Int) ≤ arm64asm.X15)
      ∧ ¬ ((65568 : Int) < arm64asm.regModulus)
      ∧ sampleRegs.Get 65568 = (5, none)
      ∧ ¬ (∀ (S : Regs) (n : Int),
            ¬ ((arm64asm.X0 : Int) ≤ n ∧ n ≤ arm64asm.X15) →
              S.Get n = (0, some proc.ErrUnknownRegister)) := by
  refine ⟨by decide, by decide, by decide, ?_⟩
  intro h
  have h1 := h sampleRegs 65568 (by decide)
  revert h1
  decide

/-- C2, amended: for every snapshot and every integer `n` whose conversion
`arm64asm.Reg(n)` (n reduced modulo 2^16) is not one of the identifiers
`arm64asm.X0 .. arm64asm.X15` of the table, `Get` returns the value 0
together with `proc.ErrUnknownRegister`; it does not report success. -/
theorem Get_unknown_register (S : Regs) (n : Int)
    (h : ¬ (arm64asm.X0 ≤ arm64asm.Reg n ∧ arm64asm.Reg n ≤ arm64asm.X15)) :
    S.Get n = (0, some proc.ErrUnknownRegister) ∧ (S.Get n).2 ≠ none := by
  have hget : S.Get n = (0, some proc.ErrUnknownRegister) := by
    unfold Regs.Get
    generalize arm64asm.Reg n = reg at h ⊢
    have h0 : arm64asm.X0 = 32 := rfl
    have h15 : arm64asm.X15 = 47 := rfl
    rw [h0, h15] at h
    have hne : ∀ c : Nat, 32 ≤ c → c ≤ 47 → reg ≠ c := by
      intro c hc1 hc2 hc
      omega
    simp only [if_neg (hne arm64asm.X0 (by decide) (by decide)),
      if_neg (hne arm64asm.X1 (by decide) (by decide)),
      if_neg (hne arm64asm.X2 (by decide) (by decide)),
      if_neg (hne arm64asm.X3 (by decide) (by decide)),
      if_neg (hne arm64asm.X4 (by decide) (by decide)),
      if_neg (hne arm64asm.X5 (by decide) (by decide)),
      if_neg (hne arm64asm.X6 (by decide) (by decide)),
      if_neg (hne arm64asm.X7 (by decide) (by decide)),
      if_neg (hne arm64asm.X8 (by decide) (by decide)),
      if_neg (hne arm64asm.X9 (by decide) (by decide)),
      if_neg (hne arm64asm.X10 (by decide) (by decide)),
      if_neg (hne arm64asm.X11 (by decide) (by decide)),
      if_neg (hne arm64asm.X12 (by decide) (by decide)),
      if_neg (hne arm64asm.X13 (by decide) (by decide)),
      if_neg (hne arm64asm.X14 (by decide) (by decide)),
      if_neg (hne arm64asm.X15 (by decide) (by decide))]
  rw [hget]
  exact ⟨rfl, by simp⟩

/-- C2, witness: the integer -1 converts to the identifier 65535, which
is outside the table, and `Get` fails on it. -/
theorem Get_unknown_register_witness :
    ¬ (arm64asm.X0 ≤ arm64asm.Reg (-1) ∧ arm64asm.Reg (-1) ≤ arm64asm.X15)
      ∧ sampleRegs.Get (-1) = (0, some proc.ErrUnknownRegister)
      ∧ (sampleRegs.Get (-1)).2 ≠ none :=
  ⟨by decide, Get_unknown_register sampleRegs (-1) (by decide)⟩

/-! ## Regs.Slice -/

/-- C3: for every snapshot, `Slice(false)` returns a nil error and exactly
32 entries whose names are, in order, X0, X1, ..., X30, Gs_base; the
sequence of names is the same constant list for every snapshot. -/
theorem Slice_false_names (S : Regs) :
    (S.Slice false).2 = none
      ∧ (S.Slice false).1.length = 32
      ∧ (S.Slice false).1.map (fun e => e.Name) = canonicalNames := by
  refine ⟨rfl, ?_, ?_⟩
  · rw [Regs.Slice_false_eq]
    rfl
  · rw [Regs.Slice_false_eq]
    rfl

/-- C4: for every snapshot, `Slice(true)` is `Slice(false)` followed by the
stored floating-point registers in their stored order, with a nil error:
its first 32 entries are the general-purpose projection and what follows
them is exactly `fpregs`; `Slice(false)` has 32 entries, each an integer
register built from the table, and it does not depend on `fpregs`. -/
theorem Slice_true_appends_fpregs (S : Regs) :
    (S.Slice true).1 = (S.Slice false).1 ++ S.fpregs
      ∧ (S.Slice true).2 = none
      ∧ (S.Slice true).1.take 32 = (S.Slice false).1
      ∧ (S.Slice true).1.drop 32 = S.fpregs
      ∧ (S.Slice false).1.length = 32
      ∧ (∀ e ∈ (S.Slice false).1, e.Bytes = [])
      ∧ (∀ f : List proc.Register, ({ S with fpregs := f } : Regs).Slice false = S.Slice false) := by
  have hlen : (S.Slice false).1.length = 32 := by
    rw [Regs.Slice_false_eq]
    rfl
  refine ⟨Regs.Slice_true_eq S, rfl, ?_, ?_, hlen, ?_, ?_⟩
  · rw [Regs.Slice_true_eq, List.take_append_of_le_length (le_of_eq hlen.symm),
      List.take_of_length_le (le_of_eq hlen)]
  · rw [Regs.Slice_true_eq, List.drop_append_of_le_length (le_of_eq hlen.symm),
      List.drop_of_length_le (le_of_eq hlen), List.nil_append]
  · intro e he
    rw [Regs.Slice_false_eq, List.mem_map] at he
    obtain ⟨kv, _, rfl⟩ := he
    rfl
  · intro f
    refine Prod.ext ?_ rfl
    rw [Regs.Slice_false_eq, Regs.Slice_false_eq]
    rfl

/-- C5, evaluated at the failing input: in `Slice(false)` of the snapshot
`sampleRegs` (x0 = 5, x1 = 7) the entry named X1 carries 5, the value of
the slot x0; and the snapshot `sampleRegsX1`, which differs from it in the
slot x1 alone (7 against 9), has the very same `Slice(false)` output. -/
theorem Slice_X1_reads_slot_x0 :
    sampleRegs.x1 = 7
      ∧ (entryNamed (sampleRegs.Slice false).1 "X1").map (fun e => e.Value) = some 5
      ∧ sampleRegsX1 = { sampleRegs with x1 := 9 }
      ∧ sampleRegsX1 ≠ sampleRegs
      ∧ sampleRegsX1.Slice false = sampleRegs.Slice false := by
  refine ⟨rfl, ?_, rfl, ?_, rfl⟩
  · rw [Regs.Slice_false_eq]
    decide
  · decide

/-! ## Regs.Copy -/

/-- C6, evaluated at the failing input: `Copy` of the snapshot `sampleRegs`
returns a nil error and a nil snapshot, not a snapshot equal to
`sampleRegs`. -/
theorem Copy_returns_nil :
    sampleRegs.Copy = (none, none) ∧ sampleRegs.Copy.1 ≠ some sampleRegs := by
  refine ⟨rfl, ?_⟩
  simp [Regs.Copy]

/-! ## registers -/

/-- C7: the fetch is all-or-nothing.  `registers` returns a snapshot with a
nil error exactly when `get_registers` and then `get_identity` both answer
`KERN_SUCCESS`; in every other case it returns a nil snapshot with a
non-nil error; and a returned snapshot is never accompanied by an error. -/
theorem registers_all_or_nothing {σ : Type} (C : threads_darwin σ) (k : σ)
    (thread : nativeThread) :
    (((registers C k thread).2.1.isSome = true ∧ (registers C k thread).2.2 = none)
        ↔ ((C.get_registers k thread.os.threadAct).2.1 = KERN_SUCCESS
            ∧ (C.get_identity (C.get_registers k thread.os.threadAct).1
                  thread.os.threadAct).2.1 = KERN_SUCCESS))
      ∧ (((registers C k thread).2.1 = none ∧ (registers C k thread).2.2.isSome = true)
        ↔ ¬ ((C.get_registers k thread.os.threadAct).2.1 = KERN_SUCCESS
            ∧ (C.get_identity (C.get_registers k thread.os.threadAct).1
                  thread.os.threadAct).2.1 = KERN_SUCCESS))
      ∧ ((registers C k thread).2.1.isSome = true ↔ (registers C k thread).2.2 = none) := by
  unfold registers
  by_cases h1 : (C.get_registers k thread.os.threadAct).2.1 = KERN_SUCCESS
  · by_cases h2 : (C.get_identity (C.get_registers k thread.os.threadAct).1
        thread.os.threadAct).2.1 = KERN_SUCCESS
    · simp [h1, h2]
    · simp [h1, h2]
  · simp [h1]

/-- C8: when `get_registers` and then `get_identity` both answer
`KERN_SUCCESS`, `registers` returns a snapshot R with a nil error such that
`Get(R, arm64asm.X0)` succeeds with the first field of the fetched state
record (the one the source stores in x0) and `TLS(R)` is the
`thread_handle` field of the fetched identity record. -/
theorem registers_X0_and_TLS {σ : Type} (C : threads_darwin σ) (k : σ)
    (thread : nativeThread)
    (h1 : (C.get_registers k thread.os.threadAct).2.1 = KERN_SUCCESS)
    (h2 : (C.get_identity (C.get_registers k thread.os.threadAct).1
            thread.os.threadAct).2.1 = KERN_SUCCESS) :
    ∃ R : Regs,
      (registers C k thread).2 = (some R, none)
        ∧ R.Get arm64asm.X0 = ((C.get_registers k thread.os.threadAct).2.2.__rax, none)
        ∧ R.TLS = (C.get_identity (C.get_registers k thread.os.threadAct).1
                    thread.os.threadAct).2.2.thread_handle := by
  refine ⟨registersLiteral (C.get_registers k thread.os.threadAct).2.2
    (C.get_identity (C.get_registers k thread.os.threadAct).1 thread.os.threadAct).2.2,
    ?_, rfl, rfl⟩
  unfold registers
  simp [h1, h2]

/-- C8, witness: the scenario thread, whose first state field holds 0x42
and whose identity handle is 0x7000, fetches to a snapshot with
`Get(X0) = 0x42` and `TLS() = 0x7000`. -/
theorem registers_X0_and_TLS_witness :
    (scripted.get_registers scenarioThread sampleThread.os.threadAct).2.1 = KERN_SUCCESS
      ∧ (scripted.get_identity scenarioThread sampleThread.os.threadAct).2.1 = KERN_SUCCESS
      ∧ ∃ R : Regs,
          (registers scripted scenarioThread sampleThread).2 = (some R, none)
            ∧ R.Get arm64asm.X0 = (0x42, none)
            ∧ R.TLS = 0x7000 :=
  ⟨rfl, rfl, registers_X0_and_TLS scripted scenarioThread sampleThread rfl rfl⟩

/-- C9: the error of `registers` tells which privileged call failed.  It is
the error "could not get registers" exactly when `get_registers` does not
answer `KERN_SUCCESS` (whatever the identity call would answer), it is the
error "could not get thread identity informations" exactly when
`get_registers` answers `KERN_SUCCESS` and `get_identity` does not, and the
two errors are distinct. -/
theorem registers_error_names_failed_call {σ : Type} (C : threads_darwin σ) (k : σ)
    (thread : nativeThread) :
    ((registers C k thread).2.2 = some (fmt.Errorf "could not get registers")
        ↔ (C.get_registers k thread.os.threadAct).2.1 ≠ KERN_SUCCESS)
      ∧ ((registers C k thread).2.2
            = some (fmt.Errorf "could not get thread identity informations")
        ↔ ((C.get_registers k thread.os.threadAct).2.1 = KERN_SUCCESS
            ∧ (C.get_identity (C.get_registers k thread.os.threadAct).1
                  thread.os.threadAct).2.1 ≠ KERN_SUCCESS))
      ∧ fmt.Errorf "could not get registers"
          ≠ fmt.Errorf "could not get thread identity informations" := by
  have hne : fmt.Errorf "could not get registers"
      ≠ fmt.Errorf "could not get thread identity informations" := by decide
  unfold registers
  by_cases h1 : (C.get_registers k thread.os.threadAct).2.1 = KERN_SUCCESS
  · by_cases h2 : (C.get_identity (C.get_registers k thread.os.threadAct).1
        thread.os.threadAct).2.1 = KERN_SUCCESS
    · simp [h1, h2, hne]
    · simp [h1, h2, hne, hne.symm]
  · simp [h1, hne]

/-! ## nativeThread.SetPC -/

/-- C10: for every thread and every value, `SetPC` returns nil exactly when
the `set_pc` call answers `KERN_SUCCESS`, and it returns the non-nil error
"could not set pc" exactly when the call answers any other status. -/
theorem SetPC_nil_iff_success {σ : Type} (C : threads_darwin σ) (k : σ)
    (thread : nativeThread) (pc : Nat) :
    ((nativeThread.SetPC C k thread pc).2 = none
        ↔ (C.set_pc k thread.os.threadAct pc).2 = KERN_SUCCESS)
      ∧ ((nativeThread.SetPC C k thread pc).2 = some (fmt.Errorf "could not set pc")
        ↔ (C.set_pc k thread.os.threadAct pc).2 ≠ KERN_SUCCESS)
      ∧ ((nativeThread.SetPC C k thread pc).2.isSome = true
        ↔ (C.set_pc k thread.os.threadAct pc).2 ≠ KERN_SUCCESS) := by
  unfold nativeThread.SetPC
  by_cases h : (C.set_pc k thread.os.threadAct pc).2 = KERN_SUCCESS
  · simp [h]
  · simp [h]

/-! ## nativeThread.SetSP and nativeThread.SetDX -/

/-- C11: for every kernel, thread and value, `SetSP` and `SetDX` return the
non-nil error "not implemented" and leave the kernel state exactly as it
was; their result is the same whatever the privileged calls would do, so
none is issued; and a fetch made after either shows the same snapshot, the
same error and the same kernel state as a fetch made before it. -/
theorem SetSP_SetDX_not_implemented {σ : Type} (C : threads_darwin σ) (k : σ)
    (thread : nativeThread) (v : Nat) :
    nativeThread.SetSP C k thread v = (k, some (errors.New "not implemented"))
      ∧ nativeThread.SetDX C k thread v = (k, some (errors.New "not implemented"))
      ∧ (nativeThread.SetSP C k thread v).2 ≠ none
      ∧ (nativeThread.SetDX C k thread v).2 ≠ none
      ∧ (∀ C2 : threads_darwin σ,
          nativeThread.SetSP C2 k thread v = nativeThread.SetSP C k thread v
            ∧ nativeThread.SetDX C2 k thread v = nativeThread.SetDX C k thread v)
      ∧ registers C (nativeThread.SetSP C k thread v).1 thread = registers C k thread
      ∧ registers C (nativeThread.SetDX C k thread v).1 thread = registers C k thread := by
  refine ⟨rfl, rfl, ?_, ?_, fun _ => ⟨rfl, rfl⟩, rfl, rfl⟩
  · simp [nativeThread.SetSP]
  · simp [nativeThread.SetDX]

/-! ## The table of Regs.Get -/

namespace Regs

/-- Outside the sixteen identifiers of the switch, `Get` takes the final
return. -/
theorem Get_of_not_inTable (S : Regs) (n : Int)
    (h : ¬ (arm64asm.X0 ≤ arm64asm.Reg n ∧ arm64asm.Reg n ≤ arm64asm.X15)) :
    S.Get n = (0, some proc.ErrUnknownRegister) := by
  unfold Regs.Get
  generalize arm64asm.Reg n = reg at h ⊢
  have h0 : arm64asm.X0 = 32 := rfl
  have h15 : arm64asm.X15 = 47 := rfl
  rw [h0, h15] at h
  have hne : ∀ c : Nat, 32 ≤ c → c ≤ 47 → reg ≠ c := by
    intro c hc1 hc2 hc
    omega
  simp only [if_neg (hne arm64asm.X0 (by decide) (by decide)),
    if_neg (hne arm64asm.X1 (by decide) (by decide)),
    if_neg (hne arm64asm.X2 (by decide) (by decide)),
    if_neg (hne arm64asm.X3 (by decide) (by decide)),
    if_neg (hne arm64asm.X4 (by decide) (by decide)),
    if_neg (hne arm64asm.X5 (by decide) (by decide)),
    if_neg (hne arm64asm.X6 (by decide) (by decide)),
    if_neg (hne arm64asm.X7 (by decide) (by decide)),
    if_neg (hne arm64asm.X8 (by decide) (by decide)),
    if_neg (hne arm64asm.X9 (by decide) (by decide)),
    if_neg (hne arm64asm.X10 (by decide) (by decide)),
    if_neg (hne arm64asm.X11 (by decide) (by decide)),
    if_neg (hne arm64asm.X12 (by decide) (by decide)),
    if_neg (hne arm64asm.X13 (by decide) (by decide)),
    if_neg (hne arm64asm.X14 (by decide) (by decide)),
    if_neg (hne arm64asm.X15 (by decide) (by decide))]

/-- On the sixteen identifiers of the switch, `Get` returns a nil error. -/
theorem Get_of_inTable (S : Regs) (n : Int)
    (h : arm64asm.X0 ≤ arm64asm.Reg n ∧ arm64asm.Reg n ≤ arm64asm.X15) :
    (S.Get n).2 = none := by
  unfold Regs.Get
  generalize arm64asm.Reg n = reg at h ⊢
  have h0 : arm64asm.X0 = 32 := rfl
  have h15 : arm64asm.X15 = 47 := rfl
  rw [h0, h15] at h
  obtain ⟨hlo, hhi⟩ := h
  interval_cases reg <;> rfl

/-- The display names of the general-purpose projection. -/
theorem map_Name_Slice_false (S : Regs) :
    (S.Slice false).1.map (fun e => e.Name) = canonicalNames := by
  rw [Regs.Slice_false_eq]
  rfl

/-- The conversion of the identifier of `X_i`, for `i ≤ 30`, is the
identifier itself. -/
theorem Reg_X (i : Nat) (h : i ≤ 30) : arm64asm.Reg (arm64asm.X i : Nat) = 32 + i := by
  unfold arm64asm.Reg arm64asm.X arm64asm.regModulus arm64asm.X0
  omega

end Regs

/-- C13: the aliasing defect.  For every snapshot, `Get(arm64asm.X0)` and
`Get(arm64asm.X1)`, two distinct identifiers, both succeed and both return
the slot x0, and the entry named X1 of `Slice(false)` carries the slot x0;
replacing the content of the slot x1 by any value changes neither
`Get(arm64asm.X1)` nor `Slice(false)`. -/
theorem Get_and_Slice_alias_X1_to_x0 (S : Regs) :
    arm64asm.X0 ≠ arm64asm.X1
      ∧ S.Get arm64asm.X0 = (S.x0, none)
      ∧ S.Get arm64asm.X1 = (S.x0, none)
      ∧ (entryNamed (S.Slice false).1 "X1").map (fun e => e.Value) = some S.x0
      ∧ (∀ v : Nat,
          ({ S with x1 := v } : Regs).Get arm64asm.X1 = S.Get arm64asm.X1
            ∧ ({ S with x1 := v } : Regs).Slice false = S.Slice false) := by
  refine ⟨by decide, rfl, rfl, ?_, fun v => ⟨rfl, ?_⟩⟩
  · rw [Regs.Slice_false_eq]
    rfl
  · refine Prod.ext ?_ rfl
    rw [Regs.Slice_false_eq, Regs.Slice_false_eq]
    rfl

/-- C14, counterexample: the integer -65504 is none of the sixteen
identifiers `arm64asm.X0 .. arm64asm.X15` (32 .. 47), yet `Get` converts it
to `arm64asm.X0` and succeeds with the slot x0; so it is false that `Get`
succeeds exactly on those sixteen integers. -/
theorem Get_succeeds_on_negative_integer :
    ¬ ((arm64asm.X0 : Int) ≤ -65504 ∧ (-65504 : Int) ≤ arm64asm.X15)
      ∧ arm64asm.Reg (-65504) = arm64asm.X0
      ∧ sampleRegs.Get (-65504) = (5, none)
      ∧ ¬ (∀ (S : Regs) (n : Int),
            (S.Get n).2 = none ↔ ((arm64asm.X0 : Int) ≤ n ∧ n ≤ arm64asm.X15)) := by
  refine ⟨by decide, by decide, by decide, ?_⟩
  intro h
  have h1 := (h sampleRegs (-65504)).mp (by decide)
  revert h1
  decide

/-- C14, amended: for every snapshot and every integer `n`, `Get` succeeds
exactly when the conversion `arm64asm.Reg(n)` (n reduced modulo 2^16) is
one of the sixteen identifiers `arm64asm.X0 .. arm64asm.X15`, and it
returns the pair (0, `proc.ErrUnknownRegister`) exactly when it is not; the
identifiers `arm64asm.X16 .. arm64asm.X30`, whose slots the snapshot holds
and `Slice` displays, are among those answered with that pair. -/
theorem Get_succeeds_iff_in_table (S : Regs) (n : Int) :
    ((S.Get n).2 = none
        ↔ (arm64asm.X0 ≤ arm64asm.Reg n ∧ arm64asm.Reg n ≤ arm64asm.X15))
      ∧ (S.Get n = (0, some proc.ErrUnknownRegister)
        ↔ ¬ (arm64asm.X0 ≤ arm64asm.Reg n ∧ arm64asm.Reg n ≤ arm64asm.X15))
      ∧ (∀ i : Nat, 16 ≤ i → i ≤ 30 →
          S.Get (arm64asm.X i : Nat) = (0, some proc.ErrUnknownRegister)
            ∧ regName i ∈ (S.Slice false).1.map (fun e => e.Name)) := by
  refine ⟨⟨?_, Regs.Get_of_inTable S n⟩, ⟨?_, Regs.Get_of_not_inTable S n⟩, ?_⟩
  · intro hok
    by_contra hnot
    rw [Regs.Get_of_not_inTable S n hnot] at hok
    simp at hok
  · intro herr hin
    have hok := Regs.Get_of_inTable S n hin
    rw [herr] at hok
    simp at hok
  · intro i h16 h30
    constructor
    · apply Regs.Get_of_not_inTable
      rw [Regs.Reg_X i h30]
      have h0 : arm64asm.X0 = 32 := rfl
      have h15 : arm64asm.X15 = 47 := rfl
      rw [h0, h15]
      omega
    · rw [Regs.map_Name_Slice_false]
      interval_cases i <;> decide

/-- C15: `Get` and `Slice` agree.  For every snapshot and every `i ≤ 15`,
`Get(arm64asm.X_i)` succeeds and the value it returns is the value of the
entry named X_i in `Slice(false)`. -/
theorem Get_agrees_with_Slice (S : Regs) (i : Nat) (h : i ≤ 15) :
    (S.Get (arm64asm.X i : Nat)).2 = none
      ∧ (entryNamed (S.Slice false).1 (regName i)).map (fun e => e.Value)
          = some (S.Get (arm64asm.X i : Nat)).1 := by
  rw [Regs.Slice_false_eq]
  interval_cases i <;> exact ⟨rfl, rfl⟩

/-- C15, witness: at `i = 1` in the snapshot `sampleRegs`, `Get` and the
entry X1 of `Slice(false)` agree (both carry 5). -/
theorem Get_agrees_with_Slice_witness :
    (1 : Nat) ≤ 15
      ∧ (sampleRegs.Get (arm64asm.X 1 : Nat)).2 = none
      ∧ (entryNamed (sampleRegs.Slice false).1 (regName 1)).map (fun e => e.Value)
          = some (sampleRegs.Get (arm64asm.X 1 : Nat)).1 :=
  ⟨by decide, Get_agrees_with_Slice sampleRegs 1 (by decide)⟩

/-! ## The snapshot built by registers -/

/-- A snapshot returned by `registers` is the composite literal built from
the two fetched records. -/
theorem registers_eq_literal {σ : Type} (C : threads_darwin σ) (k : σ)
    (thread : nativeThread) (R : Regs) (h : (registers C k thread).2.1 = some R) :
    R = registersLiteral (C.get_registers k thread.os.threadAct).2.2
          (C.get_identity (C.get_registers k thread.os.threadAct).1
            thread.os.threadAct).2.2 := by
  unfold registers at h
  by_cases h1 : (C.get_registers k thread.os.threadAct).2.1 = KERN_SUCCESS
  · by_cases h2 : (C.get_identity (C.get_registers k thread.os.threadAct).1
        thread.os.threadAct).2.1 = KERN_SUCCESS
    · simp [h1, h2] at h
      exact h.symm
    · simp [h1, h2] at h
  · simp [h1] at h

/-- C16: for every kernel and thread, a snapshot R returned by `registers`
has the slots x17 .. x30 equal to 0 and an empty floating-point blob,
whatever the fetched state record holds, and its slot x16 holds the
instruction-pointer field of the fetched state record; so `Slice(true)`
equals `Slice(false)` on it and each of its entries X17 .. X30 carries 0. -/
theorem registers_high_slots_zero {σ : Type} (C : threads_darwin σ) (k : σ)
    (thread : nativeThread) (R : Regs) (h : (registers C k thread).2.1 = some R) :
    [R.x17, R.x18, R.x19, R.x20, R.x21, R.x22, R.x23, R.x24, R.x25, R.x26,
        R.x27, R.x28, R.x29, R.x30] = List.replicate 14 0
      ∧ R.fpregs = []
      ∧ R.x16 = (C.get_registers k thread.os.threadAct).2.2.__rip
      ∧ R.Slice true = R.Slice false
      ∧ (∀ name ∈ highNames,
          (entryNamed (R.Slice false).1 name).map (fun e => e.Value) = some 0) := by
  have hR := registers_eq_literal C k thread R h
  subst hR
  refine ⟨rfl, rfl, rfl, ?_, ?_⟩
  · refine Prod.ext ?_ rfl
    rw [Regs.Slice_true_eq]
    exact List.append_nil _
  · intro name hname
    rw [Regs.Slice_false_eq]
    simp only [highNames, List.mem_cons, List.mem_singleton, List.not_mem_nil, or_false] at hname
    rcases hname with rfl | rfl | rfl | rfl | rfl | rfl | rfl | rfl | rfl | rfl | rfl | rfl | rfl | rfl <;> rfl

/-- C16, witness: the busy thread, every field of whose state record is
non-zero, fetches to a snapshot with x17 .. x30 zero, no floating-point
registers and x16 = 117, its instruction-pointer field. -/
theorem registers_high_slots_zero_witness :
    (registers scripted busyThread sampleThread).2.1
        = some (registersLiteral busyState busyThread.identity)
      ∧ [(registersLiteral busyState busyThread.identity).x17,
          (registersLiteral busyState busyThread.identity).x18,
          (registersLiteral busyState busyThread.identity).x19,
          (registersLiteral busyState busyThread.identity).x20,
          (registersLiteral busyState busyThread.identity).x21,
          (registersLiteral busyState busyThread.identity).x22,
          (registersLiteral busyState busyThread.identity).x23,
          (registersLiteral busyState busyThread.identity).x24,
          (registersLiteral busyState busyThread.identity).x25,
          (registersLiteral busyState busyThread.identity).x26,
          (registersLiteral busyState busyThread.identity).x27,
          (registersLiteral busyState busyThread.identity).x28,
          (registersLiteral busyState busyThread.identity).x29,
          (registersLiteral busyState busyThread.identity).x30] = List.replicate 14 0
      ∧ (registersLiteral busyState busyThread.identity).fpregs = []
      ∧ (registersLiteral busyState busyThread.identity).x16
          = (scripted.get_registers busyThread sampleThread.os.threadAct).2.2.__rip
      ∧ (registersLiteral busyState busyThread.identity).Slice true
          = (registersLiteral busyState busyThread.identity).Slice false
      ∧ (∀ name ∈ highNames,
          (entryNamed ((registersLiteral busyState busyThread.identity).Slice false).1
            name).map (fun e => e.Value) = some 0) :=
  ⟨rfl, registers_high_slots_zero scripted busyThread sampleThread
    (registersLiteral busyState busyThread.identity) rfl⟩

end native
